import Mathlib

/- Shallow embedding of the freight transport network derivation engine
   (`freight_network.py`) of the `freight_transport_network` repository,
   together with the OD-pair construction contract of the builder component
   (`modules/builder/components/od.py`, exercised by `test_od.py`).

   Numeric values (tons, distances, parameter values, costs) are embedded as
   real numbers; Python `dict` collections are embedded as association lists;
   Python exceptions (`KeyError`, `ZeroDivisionError`) are embedded with
   `Except`, where an error value carries the mutable state as it stood when
   the exception was raised. -/

/-- Python exception classes raised by the engine code paths under study. -/
inductive PyError where
  | keyError : PyError
  | zeroDivisionError : PyError
deriving DecidableEq

/-- Modelled from the spec: the `Link` entity of a modal network
(`{id, distance, gauge, original_ton, derived_ton}`); the link class itself
(`railway_link.py` / road link) is not part of the sources, only its interface
(`remove_original_ton`, `add_derived_ton`) is used by `freight_network.py`.
The id and gauge are the keys of the two-level link table, so only the numeric
payload is stored here. -/
structure Link where
  distance : ℝ
  original_ton : ℝ
  derived_ton : ℝ

/-- Modelled from the spec: `Link.remove_original_ton`, "reduce that link's
`original_ton` by `derived_tons`". -/
def Link.removeOriginalTon (l : Link) (t : ℝ) : Link :=
  { l with original_ton := l.original_ton - t }

/-- Modelled from the spec: `Link.add_derived_ton`, "increase that link's
`derived_ton` by `derived_tons`". -/
def Link.addDerivedTon (l : Link) (t : ℝ) : Link :=
  { l with derived_ton := l.derived_ton + t }

/-- Modelled from the spec: the `OD Pair` entity
(`{id, origin_node, destination_node, tons, category, distance, gauge, path,
links}`); the OD class (`modules/builder/components/od.py`) is not part of
the sources, only its accessors (`get_ton`, `get_id`, `get_category`,
`get_links`, `get_gauge`, `get_dist`, `is_intrazone`) are used by
`freight_network.py`. -/
structure OD where
  id : String
  origin : ℤ
  destination : ℤ
  tons : ℝ
  category : ℤ
  dist : ℝ
  gauge : String
  path : List ℤ
  links : List String

/-- Modelled from the spec: `OD.is_intrazone`, an OD pair is intrazone exactly
when its origin node equals its destination node. -/
def OD.isIntrazone (od : OD) : Bool :=
  od.origin == od.destination

/-- Modelled from the spec: a modal network (`RailwayNetwork` /
`RoadwayNetwork` of `modal_networks.py`, not part of the sources) as seen
through the interface consumed by `freight_network.py`: an OD-pair table keyed
by `(id, category)`, a two-level link table keyed by link id and then gauge, a
parameter store keyed by parameter name (only the `value` field of a
`Parameter` is consulted), and the external path queries `has_railway_path`
and `get_path_distance`. -/
structure ModalNetwork where
  ods : List OD
  links : List (String × List (String × Link))
  params : List (String × ℝ)
  hasPath : OD → Bool
  pathDistance : OD → ℝ

/-- Parameter store lookup, `name in params` / `params[name].value`. -/
def ModalNetwork.lookupParam (n : ModalNetwork) (name : String) : Option ℝ :=
  n.params.lookup name

/-- Parameter store access `params[name].value`, raising `KeyError` when the
name is absent. -/
def ModalNetwork.getParam (n : ModalNetwork) (name : String) : Except PyError ℝ :=
  match n.lookupParam name with
  | some v => Except.ok v
  | none => Except.error PyError.keyError

/-- Modelled from the spec: `ModalNetwork.get_od(id, category)`, the twin
lookup keyed by `(id, category)` into the OD-pair table. -/
def ModalNetwork.getOd (n : ModalNetwork) (id : String) (cat : ℤ) : Option OD :=
  n.ods.find? (fun o => o.id == id && o.category == cat)

/-- Two-level link table access `get_link(id)[gauge]`. -/
def getLinkG (tbl : List (String × List (String × Link))) (id gauge : String) :
    Option Link :=
  (tbl.lookup id).bind (fun gs => gs.lookup gauge)

/-- In-place update of every entry of an association list at one key. -/
def updAssoc {α : Type} (l : List (String × α)) (k : String) (f : α → α) :
    List (String × α) :=
  l.map (fun q => if q.1 == k then (q.1, f q.2) else q)

/-- In-place update of the link stored at one `(id, gauge)` key of a two-level
link table. -/
def updateLink (tbl : List (String × List (String × Link))) (id gauge : String)
    (f : Link → Link) : List (String × List (String × Link)) :=
  updAssoc tbl id (fun gs => updAssoc gs gauge f)

/-- In-place update of the OD pair stored at one `(id, category)` key of an
OD-pair table. -/
def ModalNetwork.updateOd (n : ModalNetwork) (id : String) (cat : ℤ)
    (f : OD → OD) : ModalNetwork :=
  { n with ods := n.ods.map (fun o => if o.id == id && o.category == cat then f o else o) }

/-- CPython 2 `sys.maxint` on a 64-bit build, `2 ^ 63 - 1`. -/
def sysMaxint : ℝ := 9223372036854775807

/-- The `FreightNetwork` orchestrator state: references to the rail and road
modal networks plus the two running cost scalars.  The cost scalars live in
`WithTop ℝ` so that the value positive infinity is representable and
distinguishable from the finite sentinel the constructor actually assigns. -/
structure FreightNetwork where
  rail : ModalNetwork
  road : ModalNetwork
  min_cost : WithTop ℝ
  max_cost : WithTop ℝ

/-- Embedding of `FreightNetwork.__init__`: store the two network references,
set `min_cost = sys.maxint` and `max_cost = 0.0`. -/
def mkFreightNetwork (railway_network roadway_network : ModalNetwork) :
    FreightNetwork :=
  { rail := railway_network
    road := roadway_network
    min_cost := (sysMaxint : ℝ)
    max_cost := (0 : ℝ) }

/-- Euclidean norm of a 2-vector, `np.linalg.norm` applied to the result of
`np.subtract` on pairs. -/
noncomputable def vecNorm (x y : ℝ) : ℝ := Real.sqrt (x ^ 2 + y ^ 2)

/-- Vectorial distance (lines 181-200 of `freight_network.py`) of the clamped
OD point to the minimum-derivation point, after the distance axis has been
rescaled into ton units with the substitution coefficient
`(max_tons - min_tons) / (max_dist - min_dist)`. -/
noncomputable def distToMin (min_tons max_tons min_dist max_dist t d : ℝ) : ℝ :=
  let coef := (max_tons - min_tons) / (max_dist - min_dist)
  vecNorm (min t max_tons - min_tons) ((min d max_dist) * coef - min_dist * coef)

/-- Vectorial distance (lines 181-201 of `freight_network.py`) from the
maximum-derivation point to the clamped OD point, on the same rescaled
axes as `distToMin`. -/
noncomputable def distToMax (min_tons max_tons min_dist max_dist t d : ℝ) : ℝ :=
  let coef := (max_tons - min_tons) / (max_dist - min_dist)
  vecNorm (max_tons - min t max_tons) (max_dist * coef - (min d max_dist) * coef)

/-- Embedding of `FreightNetwork._od_pair_is_derivable` (lines 112-140).
Early returns for intrazone pairs, category 0 pairs and pairs without an
operable railway path; then the three threshold comparisons, raising
`KeyError` when a parameter is missing and `ZeroDivisionError` when the road
path distance is zero (line 136 divides by it unconditionally). -/
noncomputable def odPairIsDerivable (fn : FreightNetwork) (od : OD) :
    Except PyError Bool :=
  if od.isIntrazone || od.category == 0 then Except.ok false
  else if ! fn.rail.hasPath od then Except.ok false
  else
    match fn.rail.lookupParam "min_tons_to_derive",
          fn.rail.lookupParam "min_dist_to_derive",
          fn.rail.lookupParam "max_path_difference" with
    | some min_tons, some min_dist, some max_diff =>
        if fn.road.pathDistance od = 0 then Except.error PyError.zeroDivisionError
        else
          Except.ok (decide (od.tons > min_tons) && decide (od.dist > min_dist) &&
            decide (|fn.rail.pathDistance od / fn.road.pathDistance od - 1| < max_diff))
    | _, _, _ => Except.error PyError.keyError

/-- Embedding of lines 161-167 of `freight_network.py`: resolve the maximum
derivation for the OD pair's product category, trying the category-suffixed
parameter name first and falling back to the generic `max_derivation`. -/
def resolveMaxDeriv (fn : FreightNetwork) (od : OD) : Except PyError ℝ :=
  match fn.rail.lookupParam ("max_derivation_" ++ toString od.category) with
  | some v => Except.ok v
  | none => fn.rail.getParam "max_derivation"

/-- Embedding of `FreightNetwork._get_derivation_coefficient` (lines 142-207):
saturation at the maximum, saturation at the minimum, and otherwise the
geometric interpolation, raising `ZeroDivisionError` for the two degenerate
float divisions (`max_dist == min_dist` at line 181 and a zero total vectorial
distance at line 205) and `KeyError` for a missing parameter. -/
noncomputable def getDerivationCoefficient (fn : FreightNetwork) (od : OD) :
    Except PyError ℝ :=
  match fn.rail.lookupParam "dist_of_max_derivation",
        fn.rail.lookupParam "min_dist_to_derive",
        fn.rail.lookupParam "tons_of_max_derivation",
        fn.rail.lookupParam "min_tons_to_derive",
        resolveMaxDeriv fn od with
  | some max_dist, some min_dist, some max_tons, some min_tons, Except.ok max_deriv =>
      if od.dist ≥ max_dist ∧ od.tons ≥ max_tons then Except.ok max_deriv
      else if od.dist ≤ min_dist ∧ od.tons ≥ min_tons then Except.ok 0
      else if max_dist = min_dist then Except.error PyError.zeroDivisionError
      else
        if distToMin min_tons max_tons min_dist max_dist od.tons od.dist
            + distToMax min_tons max_tons min_dist max_dist od.tons od.dist = 0 then
          Except.error PyError.zeroDivisionError
        else
          Except.ok (max_deriv *
            (distToMin min_tons max_tons min_dist max_dist od.tons od.dist /
              (distToMin min_tons max_tons min_dist max_dist od.tons od.dist
                + distToMax min_tons max_tons min_dist max_dist od.tons od.dist)))
  | _, _, _, _, _ => Except.error PyError.keyError

/-- Stepwise embedding of the two link loops of `derive_to_railway`
(lines 50-58): visit each link id of the path in order, look the link up by
id and gauge (raising `KeyError` when either level of the lookup fails, with
the table as already mutated so far), and apply the mutation. -/
def mutateLinks (tbl : List (String × List (String × Link))) (ids : List String)
    (gauge : String) (f : Link → Link) :
    Except (PyError × List (String × List (String × Link)))
      (List (String × List (String × Link))) :=
  match ids with
  | [] => Except.ok tbl
  | id :: rest =>
    match getLinkG tbl id gauge with
    | none => Except.error (PyError.keyError, tbl)
    | some _ => mutateLinks (updateLink tbl id gauge f) rest gauge f

/-- Embedding of `FreightNetwork.derive_to_railway` (lines 35-58).  The
computation follows the source order: compute `derived_tons`, look up the twin
rail OD pair by `(id, category)` (raising `KeyError` before any mutation when
it is absent), apply `od_road.derive_ton(od_rail, coeff)` (modelled from the
spec: the source pair keeps `tons * (1 - coeff)` and the twin gains
`derived_tons`), then remove `derived_tons` from every road link of the road
path and add `derived_tons` to every rail link of the rail path.  An error
carries the orchestrator state as mutated so far. -/
noncomputable def deriveToRailway (fn : FreightNetwork) (od_road : OD)
    (coeff : ℝ) : Except (PyError × FreightNetwork) FreightNetwork :=
  let derived_tons := od_road.tons * coeff
  match fn.rail.getOd od_road.id od_road.category with
  | none => Except.error (PyError.keyError, fn)
  | some od_rail =>
    let road1 := fn.road.updateOd od_road.id od_road.category
      (fun o => { o with tons := o.tons * (1 - coeff) })
    let rail1 := fn.rail.updateOd od_road.id od_road.category
      (fun o => { o with tons := o.tons + derived_tons })
    let fn1 : FreightNetwork := { fn with road := road1, rail := rail1 }
    match mutateLinks road1.links od_road.links od_road.gauge
        (fun l => l.removeOriginalTon derived_tons) with
    | Except.error (e, tbl) =>
        Except.error (e, { fn1 with road := { road1 with links := tbl } })
    | Except.ok roadLinks2 =>
      let fn2 : FreightNetwork := { fn1 with road := { road1 with links := roadLinks2 } }
      match mutateLinks rail1.links od_rail.links od_rail.gauge
          (fun l => l.addDerivedTon derived_tons) with
      | Except.error (e, tbl) =>
          Except.error (e, { fn2 with rail := { rail1 with links := tbl } })
      | Except.ok railLinks2 =>
          Except.ok { fn2 with rail := { rail1 with links := railLinks2 } }

/-- Loop body of `derive_all_to_railway` (lines 69-82): check derivability,
compute the coefficient, derive, and continue with the rest of the road OD
pairs; a raised exception aborts the loop carrying the state reached. -/
noncomputable def deriveAllAux (fn : FreightNetwork) (ods : List OD) :
    Except (PyError × FreightNetwork) FreightNetwork :=
  match ods with
  | [] => Except.ok fn
  | od :: rest =>
    match odPairIsDerivable fn od with
    | Except.error e => Except.error (e, fn)
    | Except.ok false => deriveAllAux fn rest
    | Except.ok true =>
      match getDerivationCoefficient fn od with
      | Except.error e => Except.error (e, fn)
      | Except.ok coeff =>
        match deriveToRailway fn od coeff with
        | Except.error es => Except.error es
        | Except.ok fn2 => deriveAllAux fn2 rest

/-- Embedding of `FreightNetwork.derive_all_to_railway` (lines 69-82):
iterate the road OD pairs. -/
noncomputable def deriveAllToRailway (fn : FreightNetwork) :
    Except (PyError × FreightNetwork) FreightNetwork :=
  deriveAllAux fn fn.road.ods

/-- Observable orchestrator state of a possibly-raising computation: the final
state on normal return, or the state as it stood when the exception was
raised. -/
def stateOf (r : Except (PyError × FreightNetwork) FreightNetwork) :
    FreightNetwork :=
  match r with
  | Except.ok s => s
  | Except.error p => p.2

namespace Builder

/-- Modelled from the spec: parse one integer node id from its decimal digit
characters, as Python `int()` does on a digit string (leading zeros allowed,
`"068"` parses to `68`). -/
def parseIntChars (cs : List Char) : ℤ :=
  cs.foldl (fun n c => 10 * n + ((c.toNat : ℤ) - 48)) 0

/-- Modelled from the spec: split a character sequence on the `"-"` delimiter
used by OD-pair identifiers and path strings. -/
def splitOnDash (cs : List Char) : List (List Char) :=
  match cs with
  | [] => [[]]
  | c :: rest =>
    let r := splitOnDash rest
    if c = '-' then [] :: r
    else
      match r with
      | [] => [[c]]
      | g :: gs => (c :: g) :: gs

/-- Modelled from the spec: the delimiter-split sequence of integer node ids
of an identifier or path string. -/
def parseNodes (s : String) : List ℤ :=
  (splitOnDash s.data).map parseIntChars

/-- Modelled from the spec: a consecutive node-id pair rendered as an
`"a-b"` link-id string. -/
def renderLinkId (a b : ℤ) : String :=
  toString a ++ "-" ++ toString b

/-- Modelled from the spec: the OD pair entity built by the builder component
(`modules/builder/components/od.py`, absent from the sources; its construction
contract is fixed by `test_od.py` and the spec). -/
structure OD where
  id : String
  nodes : List ℤ
  tons : ℤ
  path : String
  path_nodes : List ℤ
  links : List String
  gauge : String

/-- Modelled from the spec: the OD constructor `OD(id, ton, path, gauge)`:
`nodes` is parsed from the `"origin-destination"` identifier, `path_nodes` is
the delimiter-split integer sequence of the path string, and `links` renders
every consecutive `path_nodes` pair as an `"a-b"` string. -/
def mkOD (id_od : String) (ton : ℤ) (path : String) (gauge : String) : OD :=
  { id := id_od
    nodes := parseNodes id_od
    tons := ton
    path := path
    path_nodes := parseNodes path
    links := ((parseNodes path).zip (parseNodes path).tail).map
      (fun q => renderLinkId q.1 q.2)
    gauge := gauge }

end Builder

/-- Concrete rail link for evaluation instances. -/
def railLinkW : Link := { distance := 130, original_ton := 10, derived_ton := 0 }

/-- Concrete road link for evaluation instances. -/
def roadLinkW : Link := { distance := 60, original_ton := 200, derived_ton := 0 }

/-- Concrete road OD pair carrying the tons and distance of the interpolation
scenario of the spec (`tons = 500`, `distance = 120`). -/
def odRoadW : OD :=
  { id := "1-2", origin := 1, destination := 2, tons := 500, category := 3,
    dist := 120, gauge := "g", path := [1, 2], links := ["a", "b"] }

/-- Concrete twin rail OD pair of `odRoadW`. -/
def odRailW : OD :=
  { id := "1-2", origin := 1, destination := 2, tons := 10, category := 3,
    dist := 130, gauge := "w", path := [1, 2], links := ["r"] }

/-- Concrete rail network carrying the parameter store of the interpolation
scenario of the spec. -/
noncomputable def railW : ModalNetwork :=
  { ods := [odRailW]
    links := [("r", [("w", railLinkW)])]
    params := [("min_tons_to_derive", 100), ("min_dist_to_derive", 50),
               ("tons_of_max_derivation", 2000), ("dist_of_max_derivation", 500),
               ("max_derivation", 4 / 5), ("max_path_difference", 1 / 2)]
    hasPath := fun _ => true
    pathDistance := fun _ => 100 }

/-- Concrete road network twinned with `railW`. -/
def roadW : ModalNetwork :=
  { ods := [odRoadW]
    links := [("a", [("g", roadLinkW)]), ("b", [("g", roadLinkW)])]
    params := []
    hasPath := fun _ => true
    pathDistance := fun _ => 100 }

/-- Concrete freight network used by the evaluation instances. -/
noncomputable def fnW : FreightNetwork := mkFreightNetwork railW roadW

/-- Road network variant whose path distance query returns zero. -/
def roadZeroW : ModalNetwork := { roadW with pathDistance := fun _ => 0 }

/-- Freight network whose road path distances are zero. -/
noncomputable def fnZeroW : FreightNetwork := mkFreightNetwork railW roadZeroW

/-- Intrazone OD pair (origin and destination coincide). -/
def odIntraW : OD :=
  { id := "5-5", origin := 5, destination := 5, tons := 500, category := 3,
    dist := 120, gauge := "g", path := [5], links := [] }

/-- Rail network whose parameter store puts the two saturation regions in
overlap: the distance of maximum derivation equals the minimum distance to
derive. -/
noncomputable def railOverlapW : ModalNetwork :=
  { railW with
    params := [("min_tons_to_derive", 100), ("min_dist_to_derive", 100),
               ("tons_of_max_derivation", 200), ("dist_of_max_derivation", 100),
               ("max_derivation", 4 / 5)] }

/-- Freight network with the overlapping saturation regions of
`railOverlapW`. -/
noncomputable def fnOverlapW : FreightNetwork := mkFreightNetwork railOverlapW roadW

/-- OD pair sitting in both saturation regions of `railOverlapW` at once:
distance `100` is at once at least `dist_of_max_derivation = 100` and at most
`min_dist_to_derive = 100`, and `300` tons meet both ton thresholds. -/
def odOverlapW : OD :=
  { id := "1-2", origin := 1, destination := 2, tons := 300, category := 3,
    dist := 100, gauge := "g", path := [1, 2], links := ["a"] }

/-- Rail network with a category-specific maximum derivation override for
category 7 next to the generic one. -/
noncomputable def railCat7W : ModalNetwork :=
  { railW with
    params := [("min_tons_to_derive", 100), ("min_dist_to_derive", 50),
               ("tons_of_max_derivation", 2000), ("dist_of_max_derivation", 500),
               ("max_derivation", 4 / 5), ("max_derivation_7", 7 / 10)] }

/-- Freight network carrying the `railCat7W` parameter store. -/
noncomputable def fnCat7W : FreightNetwork := mkFreightNetwork railCat7W roadW

/-- Category-7 OD pair in the maximum-saturation region. -/
def odSat7W : OD :=
  { id := "1-2", origin := 1, destination := 2, tons := 2500, category := 7,
    dist := 600, gauge := "g", path := [1, 2], links := ["a"] }

/-- Category-3 OD pair in the maximum-saturation region (no category
override present for category 3). -/
def odSat3W : OD := { odSat7W with category := 3 }

/-- Category-3 OD pair in the minimum-saturation region of `railCat7W`. -/
def odMinSatW : OD :=
  { id := "1-2", origin := 1, destination := 2, tons := 150, category := 3,
    dist := 40, gauge := "g", path := [1, 2], links := ["a"] }

/-- Rail network whose interpolation scale is degenerate:
`dist_of_max_derivation` equals `min_dist_to_derive`. -/
noncomputable def railDegenW : ModalNetwork :=
  { railW with
    params := [("min_tons_to_derive", 100), ("min_dist_to_derive", 50),
               ("tons_of_max_derivation", 2000), ("dist_of_max_derivation", 50),
               ("max_derivation", 4 / 5)] }

/-- Freight network carrying the degenerate `railDegenW` parameter store. -/
noncomputable def fnDegenW : FreightNetwork := mkFreightNetwork railDegenW roadW

/-- OD pair reaching the interpolated region of `railDegenW`: too light for
the maximum saturation, too far for the minimum saturation. -/
def odDegenW : OD :=
  { id := "1-2", origin := 1, destination := 2, tons := 500, category := 3,
    dist := 60, gauge := "g", path := [1, 2], links := ["a"] }

/-- Rail network with an empty OD-pair table: no road OD pair has a twin. -/
noncomputable def railEmptyW : ModalNetwork := { railW with ods := [] }

/-- Freight network whose rail OD table is empty. -/
noncomputable def fnEmptyW : FreightNetwork := mkFreightNetwork railEmptyW roadW

theorem lookup_cons_self {α : Type} (k : String) (v : α) (rest : List (String × α)) :
    List.lookup k ((k, v) :: rest) = some v := by
  simp [List.lookup]

theorem lookup_cons_ne {α : Type} (j k : String) (v : α) (rest : List (String × α))
    (h : j ≠ k) : List.lookup j ((k, v) :: rest) = List.lookup j rest := by
  simp [List.lookup, beq_false_of_ne h]

theorem lookup_updAssoc_self {α : Type} (l : List (String × α)) (k : String)
    (f : α → α) : (updAssoc l k f).lookup k = (l.lookup k).map f := by
  induction l with
  | nil => rfl
  | cons q rest ih =>
    rcases q with ⟨a, v⟩
    by_cases h : a = k
    · subst h
      simp only [updAssoc, List.map_cons, beq_self_eq_true, if_pos]
      rw [lookup_cons_self, lookup_cons_self]
      rfl
    · have hne : (a == k) = false := beq_false_of_ne h
      simp only [updAssoc, List.map_cons, hne, Bool.false_eq_true, if_false]
      rw [lookup_cons_ne _ _ _ _ (Ne.symm h), lookup_cons_ne _ _ _ _ (Ne.symm h)]
      simpa [updAssoc] using ih

theorem lookup_updAssoc_ne {α : Type} (l : List (String × α)) (k j : String)
    (f : α → α) (h : j ≠ k) : (updAssoc l k f).lookup j = l.lookup j := by
  induction l with
  | nil => rfl
  | cons q rest ih =>
    rcases q with ⟨a, v⟩
    by_cases ha : a = k
    · subst ha
      simp only [updAssoc, List.map_cons, beq_self_eq_true, if_pos]
      rw [lookup_cons_ne _ _ _ _ h, lookup_cons_ne _ _ _ _ h]
      simpa [updAssoc] using ih
    · have hne : (a == k) = false := beq_false_of_ne ha
      simp only [updAssoc, List.map_cons, hne, Bool.false_eq_true, if_false]
      by_cases hj : j = a
      · subst hj
        rw [lookup_cons_self, lookup_cons_self]
      · rw [lookup_cons_ne _ _ _ _ hj, lookup_cons_ne _ _ _ _ hj]
        simpa [updAssoc] using ih

theorem getLinkG_updateLink (tbl : List (String × List (String × Link)))
    (id gauge : String) (f : Link → Link) (j : String) :
    getLinkG (updateLink tbl id gauge f) j gauge =
      if j = id then (getLinkG tbl j gauge).map f else getLinkG tbl j gauge := by
  by_cases h : j = id
  · subst h
    simp only [getLinkG, updateLink, if_pos rfl, lookup_updAssoc_self]
    cases tbl.lookup j with
    | none => rfl
    | some gs => simp [lookup_updAssoc_self]
  · simp only [getLinkG, updateLink, if_neg h, lookup_updAssoc_ne _ _ _ _ h]

theorem mutateLinks_ok (ids : List String) (gauge : String) (f : Link → Link) :
    ∀ tbl, (∀ j ∈ ids, getLinkG tbl j gauge ≠ none) →
    ∃ tbl2, mutateLinks tbl ids gauge f = Except.ok tbl2 ∧
      (∀ j, j ∉ ids → getLinkG tbl2 j gauge = getLinkG tbl j gauge) ∧
      (ids.Nodup → ∀ j ∈ ids, getLinkG tbl2 j gauge = (getLinkG tbl j gauge).map f) := by
  induction ids with
  | nil =>
    intro tbl _
    exact ⟨tbl, rfl, fun j _ => rfl, fun _ j hj => absurd hj (List.not_mem_nil j)⟩
  | cons id rest ih =>
    intro tbl hpres
    cases hcur : getLinkG tbl id gauge with
    | none => exact absurd hcur (hpres id (List.mem_cons_self id rest))
    | some l =>
      have hpres2 : ∀ j ∈ rest, getLinkG (updateLink tbl id gauge f) j gauge ≠ none := by
        intro j hj
        rw [getLinkG_updateLink]
        by_cases hji : j = id
        · subst hji
          rw [if_pos rfl, hcur]
          simp
        · rw [if_neg hji]
          exact hpres j (List.mem_cons_of_mem id hj)
      obtain ⟨tbl2, hok, hout, hin⟩ := ih (updateLink tbl id gauge f) hpres2
      refine ⟨tbl2, ?_, ?_, ?_⟩
      · rw [mutateLinks, hcur, hok]
      · intro j hj
        have hj2 : j ≠ id ∧ j ∉ rest := by
          constructor
          · intro hh; exact hj (hh ▸ List.mem_cons_self id rest)
          · intro hh; exact hj (List.mem_cons_of_mem id hh)
        rw [hout j hj2.2, getLinkG_updateLink, if_neg hj2.1]
      · intro hnd j hj
        have hnd2 := List.nodup_cons.mp hnd
        rcases List.mem_cons.mp hj with rfl | hjr
        · rw [hout j hnd2.1, getLinkG_updateLink, if_pos rfl]
        · have hjid : j ≠ id := fun hh => hnd2.1 (hh ▸ hjr)
          rw [hin hnd2.2 j hjr, getLinkG_updateLink, if_neg hjid]

theorem find?_map_condUpdate (l : List OD) (p : OD → Bool) (f : OD → OD)
    (hf : ∀ o, p (f o) = p o) :
    (l.map (fun o => if p o then f o else o)).find? p = (l.find? p).map f := by
  induction l with
  | nil => rfl
  | cons o rest ih =>
    by_cases h : p o = true
    · simp [List.find?_cons, h, hf]
    · have h2 : p o = false := Bool.eq_false_iff.mpr h
      simp [List.find?_cons, h2, ih]

theorem getOd_updateOd (n : ModalNetwork) (id : String) (cat : ℤ)
    (f : OD → OD) (hf : ∀ o, (f o).id = o.id ∧ (f o).category = o.category) :
    (n.updateOd id cat f).getOd id cat = (n.getOd id cat).map f := by
  unfold ModalNetwork.getOd ModalNetwork.updateOd
  refine find?_map_condUpdate n.ods _ _ (fun o => ?_)
  rw [(hf o).1, (hf o).2]

theorem deriveToRailway_spec (fn : FreightNetwork) (od : OD) (c : ℝ) (odr : OD)
    (hrail : fn.rail.getOd od.id od.category = some odr)
    (hp1 : ∀ j ∈ od.links, getLinkG fn.road.links j od.gauge ≠ none)
    (hp2 : ∀ j ∈ odr.links, getLinkG fn.rail.links j odr.gauge ≠ none) :
    ∃ st2, deriveToRailway fn od c = Except.ok st2 ∧
      st2.road.ods = (fn.road.updateOd od.id od.category
        (fun o => { o with tons := o.tons * (1 - c) })).ods ∧
      st2.rail.ods = (fn.rail.updateOd od.id od.category
        (fun o => { o with tons := o.tons + od.tons * c })).ods ∧
      (∀ j, j ∉ od.links →
        getLinkG st2.road.links j od.gauge = getLinkG fn.road.links j od.gauge) ∧
      (od.links.Nodup → ∀ j ∈ od.links,
        getLinkG st2.road.links j od.gauge =
          (getLinkG fn.road.links j od.gauge).map
            (fun l => l.removeOriginalTon (od.tons * c))) ∧
      (∀ j, j ∉ odr.links →
        getLinkG st2.rail.links j odr.gauge = getLinkG fn.rail.links j odr.gauge) ∧
      (odr.links.Nodup → ∀ j ∈ odr.links,
        getLinkG st2.rail.links j odr.gauge =
          (getLinkG fn.rail.links j odr.gauge).map
            (fun l => l.addDerivedTon (od.tons * c))) ∧
      st2.min_cost = fn.min_cost ∧ st2.max_cost = fn.max_cost := by
  obtain ⟨rl2, hok1, hout1, hin1⟩ := mutateLinks_ok od.links od.gauge
    (fun l => l.removeOriginalTon (od.tons * c)) fn.road.links hp1
  obtain ⟨tl2, hok2, hout2, hin2⟩ := mutateLinks_ok odr.links odr.gauge
    (fun l => l.addDerivedTon (od.tons * c)) fn.rail.links hp2
  refine ⟨{ rail := { fn.rail with
                ods := (fn.rail.updateOd od.id od.category
                  (fun o => { o with tons := o.tons + od.tons * c })).ods
                links := tl2 }
            road := { fn.road with
                ods := (fn.road.updateOd od.id od.category
                  (fun o => { o with tons := o.tons * (1 - c) })).ods
                links := rl2 }
            min_cost := fn.min_cost
            max_cost := fn.max_cost },
    ?_, rfl, rfl, hout1, hin1, hout2, hin2, rfl, rfl⟩
  simp only [deriveToRailway, hrail, ModalNetwork.updateOd, hok1, hok2]

theorem deriveToRailway_cost_state (fn : FreightNetwork) (od : OD) (c : ℝ) :
    (stateOf (deriveToRailway fn od c)).min_cost = fn.min_cost ∧
    (stateOf (deriveToRailway fn od c)).max_cost = fn.max_cost := by
  rcases hG : fn.rail.getOd od.id od.category with _ | odr
  · simp [deriveToRailway, stateOf, hG]
  · simp only [deriveToRailway, hG, ModalNetwork.updateOd]
    rcases hM1 : mutateLinks fn.road.links od.links od.gauge
        (fun l => l.removeOriginalTon (od.tons * c)) with ⟨e, tbl⟩ | rl2
    · simp [stateOf, hM1]
    · simp only [hM1]
      rcases hM2 : mutateLinks fn.rail.links odr.links odr.gauge
          (fun l => l.addDerivedTon (od.tons * c)) with ⟨e2, tbl2⟩ | tl2
      · simp [stateOf, hM2]
      · simp [stateOf, hM2]

theorem deriveAllAux_cost_state (ods : List OD) :
    ∀ fn : FreightNetwork,
      (stateOf (deriveAllAux fn ods)).min_cost = fn.min_cost ∧
      (stateOf (deriveAllAux fn ods)).max_cost = fn.max_cost := by
  induction ods with
  | nil => intro fn; exact ⟨rfl, rfl⟩
  | cons od rest ih =>
    intro fn
    rcases hE : odPairIsDerivable fn od with e | b
    · simp [deriveAllAux, stateOf, hE]
    · rcases b with _ | _
      · simp only [deriveAllAux, hE]
        exact ih fn
      · simp only [deriveAllAux, hE]
        rcases hC : getDerivationCoefficient fn od with e | coeff
        · simp [stateOf, hC]
        · simp only [hC]
          rcases hD : deriveToRailway fn od coeff with ep | fn2
          · have := deriveToRailway_cost_state fn od coeff
            rw [hD] at this
            simpa [stateOf, hD] using this
          · have hpre := deriveToRailway_cost_state fn od coeff
            rw [hD] at hpre
            have hrest := ih fn2
            simp only [stateOf] at hpre
            exact ⟨by rw [hrest.1, hpre.1], by rw [hrest.2, hpre.2]⟩

/-- Claim C8: an OD pair built from an `"origin-destination"` identifier and a
delimiter-separated path string parses its `nodes` from the identifier, its
`path_nodes` from the path string, and renders `links` as the consecutive
node pairs; in particular identifier `"70-68"` with path `"068-069-070"`
yields `nodes = [70, 68]`, `path_nodes = [68, 69, 70]` and
`links = ["68-69", "69-70"]`. -/
theorem builder_od_construction :
    (Builder.mkOD "70-68" 333906 "068-069-070" "ancha").nodes = [70, 68] ∧
    (Builder.mkOD "70-68" 333906 "068-069-070" "ancha").path_nodes = [68, 69, 70] ∧
    (Builder.mkOD "70-68" 333906 "068-069-070" "ancha").links = ["68-69", "69-70"] ∧
    ∀ (i : String) (t : ℤ) (p g : String),
      (Builder.mkOD i t p g).nodes = Builder.parseNodes i ∧
      (Builder.mkOD i t p g).path_nodes = Builder.parseNodes p ∧
      (Builder.mkOD i t p g).links =
        ((Builder.parseNodes p).zip (Builder.parseNodes p).tail).map
          (fun q => Builder.renderLinkId q.1 q.2) :=
  ⟨by decide, by decide, by decide, fun i t p g => ⟨rfl, rfl, rfl⟩⟩

/-- Claim C9 (amended): on construction the running scalar `min_cost` is
initialized to the finite sentinel `sys.maxint` (not to positive infinity)
and `max_cost` to zero, and no derivation operation, single or bulk, on any
outcome (normal return or raised exception) modifies either scalar;
derivability checking and coefficient computation read the state only. -/
theorem cost_extrema_init_and_preserved :
    (∀ r1 r2 : ModalNetwork,
      (mkFreightNetwork r1 r2).min_cost = ((sysMaxint : ℝ) : WithTop ℝ) ∧
      (mkFreightNetwork r1 r2).max_cost = ((0 : ℝ) : WithTop ℝ)) ∧
    (∀ (fn : FreightNetwork) (od : OD) (c : ℝ),
      (stateOf (deriveToRailway fn od c)).min_cost = fn.min_cost ∧
      (stateOf (deriveToRailway fn od c)).max_cost = fn.max_cost) ∧
    (∀ fn : FreightNetwork,
      (stateOf (deriveAllToRailway fn)).min_cost = fn.min_cost ∧
      (stateOf (deriveAllToRailway fn)).max_cost = fn.max_cost) :=
  ⟨fun _ _ => ⟨rfl, rfl⟩, deriveToRailway_cost_state,
    fun fn => deriveAllAux_cost_state fn.road.ods fn⟩

/-- Claim C9 counterexample: the constructor does not initialize `min_cost`
to positive infinity; it assigns the finite integer `sys.maxint`. -/
theorem min_cost_init_not_top :
    (mkFreightNetwork railW roadW).min_cost ≠ (⊤ : WithTop ℝ) ∧
    (mkFreightNetwork railW roadW).min_cost = ((sysMaxint : ℝ) : WithTop ℝ) :=
  ⟨WithTop.coe_ne_top, rfl⟩

/-- Claim C10: when the road OD pair has no twin in the rail OD table at key
`(id, category)`, `derive_to_railway` raises `KeyError` before performing any
mutation, so the error carries the orchestrator state exactly as it was. -/
theorem deriveToRailway_missing_twin_atomic (fn : FreightNetwork) (od : OD)
    (c : ℝ) (h : fn.rail.getOd od.id od.category = none) :
    deriveToRailway fn od c = Except.error (PyError.keyError, fn) := by
  simp only [deriveToRailway, h]

/-- Evaluation of `deriveToRailway_missing_twin_atomic` on a concrete freight
network whose rail OD table is empty. -/
theorem deriveToRailway_missing_twin_atomic_eval :
    deriveToRailway fnEmptyW odRoadW (1 / 2) =
      Except.error (PyError.keyError, fnEmptyW) :=
  deriveToRailway_missing_twin_atomic fnEmptyW odRoadW (1 / 2) rfl

/-- Claim C4 (amended): in the maximum-saturation region
(`distance >= max_dist` and `tons >= max_tons`) the coefficient is exactly the
resolved maximum derivation — the category-suffixed parameter when present,
otherwise the generic `max_derivation`; and in the minimum-saturation region
(`distance <= min_dist` and `tons >= min_tons`) the coefficient is exactly
zero PROVIDED the pair is not simultaneously in the maximum-saturation region,
which takes precedence (automatic whenever `min_dist < max_dist`). -/
theorem derivationCoefficient_saturation
    (fn : FreightNetwork) (od : OD) (max_dist min_dist max_tons min_tons : ℝ)
    (h1 : fn.rail.lookupParam "dist_of_max_derivation" = some max_dist)
    (h2 : fn.rail.lookupParam "min_dist_to_derive" = some min_dist)
    (h3 : fn.rail.lookupParam "tons_of_max_derivation" = some max_tons)
    (h4 : fn.rail.lookupParam "min_tons_to_derive" = some min_tons) :
    (∀ v : ℝ, od.dist ≥ max_dist → od.tons ≥ max_tons →
      fn.rail.lookupParam ("max_derivation_" ++ toString od.category) = some v →
      getDerivationCoefficient fn od = Except.ok v) ∧
    (∀ w : ℝ, od.dist ≥ max_dist → od.tons ≥ max_tons →
      fn.rail.lookupParam ("max_derivation_" ++ toString od.category) = none →
      fn.rail.lookupParam "max_derivation" = some w →
      getDerivationCoefficient fn od = Except.ok w) ∧
    (∀ m : ℝ, resolveMaxDeriv fn od = Except.ok m →
      ¬(od.dist ≥ max_dist ∧ od.tons ≥ max_tons) →
      od.dist ≤ min_dist → od.tons ≥ min_tons →
      getDerivationCoefficient fn od = Except.ok 0) := by
  refine ⟨?_, ?_, ?_⟩
  · intro v hd ht hov
    have hres : resolveMaxDeriv fn od = Except.ok v := by
      simp only [resolveMaxDeriv, hov]
    simp only [getDerivationCoefficient, h1, h2, h3, h4, hres,
      if_pos (And.intro hd ht)]
  · intro w hd ht hov hgen
    have hres : resolveMaxDeriv fn od = Except.ok w := by
      simp only [resolveMaxDeriv, hov, ModalNetwork.getParam, hgen]
    simp only [getDerivationCoefficient, h1, h2, h3, h4, hres,
      if_pos (And.intro hd ht)]
  · intro m hres hnot hd ht
    simp only [getDerivationCoefficient, h1, h2, h3, h4, hres, if_neg hnot,
      if_pos (And.intro hd ht)]

/-- Claim C4 counterexample: with a parameter store in which
`dist_of_max_derivation` equals `min_dist_to_derive` (both 100), an OD pair
with distance 100 and 300 tons lies in the minimum-saturation region
(distance at most `min_dist`, tons at least `min_tons`), yet the coefficient
is the maximum derivation `4 / 5`, not the zero the claim promises, because
the maximum-saturation branch is tested first. -/
theorem derivationCoefficient_saturation_overlap :
    odOverlapW.dist ≤ 100 ∧ (100 : ℝ) ≤ odOverlapW.tons ∧
    fnOverlapW.rail.lookupParam "min_dist_to_derive" = some 100 ∧
    fnOverlapW.rail.lookupParam "min_tons_to_derive" = some 100 ∧
    getDerivationCoefficient fnOverlapW odOverlapW = Except.ok (4 / 5) ∧
    (Except.ok (4 / 5) : Except PyError ℝ) ≠ Except.ok 0 := by
  have e1 : fnOverlapW.rail.lookupParam "dist_of_max_derivation" = some 100 := rfl
  have e2 : fnOverlapW.rail.lookupParam "min_dist_to_derive" = some 100 := rfl
  have e3 : fnOverlapW.rail.lookupParam "tons_of_max_derivation" = some 200 := rfl
  have e4 : fnOverlapW.rail.lookupParam "min_tons_to_derive" = some 100 := rfl
  have e5 : resolveMaxDeriv fnOverlapW odOverlapW = Except.ok (4 / 5) := rfl
  refine ⟨by norm_num [odOverlapW], by norm_num [odOverlapW], e2, e4, ?_, ?_⟩
  · simp only [getDerivationCoefficient, e1, e2, e3, e4, e5]
    rw [if_pos (by norm_num [odOverlapW])]
  · intro hc
    have : (4 / 5 : ℝ) = 0 := Except.ok.inj hc
    norm_num at this

/-- Evaluation of `derivationCoefficient_saturation` on concrete saturated OD
pairs: a category-7 pair picks the `max_derivation_7` override, a category-3
pair falls back to the generic `max_derivation`, and a pair in the
minimum-saturation region only gets coefficient zero. -/
theorem derivationCoefficient_saturation_eval :
    getDerivationCoefficient fnCat7W odSat7W = Except.ok (7 / 10) ∧
    getDerivationCoefficient fnCat7W odSat3W = Except.ok (4 / 5) ∧
    getDerivationCoefficient fnCat7W odMinSatW = Except.ok 0 := by
  have h7 := derivationCoefficient_saturation fnCat7W odSat7W 500 50 2000 100
    rfl rfl rfl rfl
  have h3 := derivationCoefficient_saturation fnCat7W odSat3W 500 50 2000 100
    rfl rfl rfl rfl
  have hm := derivationCoefficient_saturation fnCat7W odMinSatW 500 50 2000 100
    rfl rfl rfl rfl
  refine ⟨?_, ?_, ?_⟩
  · exact h7.1 (7 / 10) (by norm_num [odSat7W]) (by norm_num [odSat7W]) rfl
  · exact h3.2.1 (4 / 5) (by norm_num [odSat3W, odSat7W])
      (by norm_num [odSat3W, odSat7W]) rfl rfl
  · exact hm.2.2 (4 / 5) rfl (by norm_num [odMinSatW]) (by norm_num [odMinSatW])
      (by norm_num [odMinSatW])

theorem distToMin_nonneg (a b u v t d : ℝ) : 0 ≤ distToMin a b u v t d :=
  Real.sqrt_nonneg _

theorem distToMax_nonneg (a b u v t d : ℝ) : 0 ≤ distToMax a b u v t d :=
  Real.sqrt_nonneg _

/-- Claim C2: with well-formed rail parameters (the resolved maximum
derivation is non-negative, `max_dist` differs from `min_dist`, and the two
vectorial distances do not sum to zero), the derivation coefficient is
returned and lies in the closed interval from zero to the resolved maximum
derivation of the OD pair's category. -/
theorem derivationCoefficient_bounds
    (fn : FreightNetwork) (od : OD)
    (max_dist min_dist max_tons min_tons max_deriv : ℝ)
    (h1 : fn.rail.lookupParam "dist_of_max_derivation" = some max_dist)
    (h2 : fn.rail.lookupParam "min_dist_to_derive" = some min_dist)
    (h3 : fn.rail.lookupParam "tons_of_max_derivation" = some max_tons)
    (h4 : fn.rail.lookupParam "min_tons_to_derive" = some min_tons)
    (h5 : resolveMaxDeriv fn od = Except.ok max_deriv)
    (hnn : 0 ≤ max_deriv)
    (hne : max_dist ≠ min_dist)
    (hsum : distToMin min_tons max_tons min_dist max_dist od.tons od.dist
          + distToMax min_tons max_tons min_dist max_dist od.tons od.dist ≠ 0) :
    ∃ c : ℝ, getDerivationCoefficient fn od = Except.ok c ∧
      0 ≤ c ∧ c ≤ max_deriv := by
  by_cases hA : od.dist ≥ max_dist ∧ od.tons ≥ max_tons
  · exact ⟨max_deriv,
      by simp only [getDerivationCoefficient, h1, h2, h3, h4, h5, if_pos hA],
      hnn, le_refl _⟩
  · by_cases hB : od.dist ≤ min_dist ∧ od.tons ≥ min_tons
    · exact ⟨0,
        by simp only [getDerivationCoefficient, h1, h2, h3, h4, h5, if_neg hA,
          if_pos hB],
        le_refl _, hnn⟩
    · have hs : 0 ≤ distToMin min_tons max_tons min_dist max_dist od.tons od.dist :=
        distToMin_nonneg _ _ _ _ _ _
      have hu : 0 ≤ distToMax min_tons max_tons min_dist max_dist od.tons od.dist :=
        distToMax_nonneg _ _ _ _ _ _
      have hpos : 0 < distToMin min_tons max_tons min_dist max_dist od.tons od.dist
          + distToMax min_tons max_tons min_dist max_dist od.tons od.dist :=
        lt_of_le_of_ne (add_nonneg hs hu) (Ne.symm hsum)
      refine ⟨max_deriv *
        (distToMin min_tons max_tons min_dist max_dist od.tons od.dist /
          (distToMin min_tons max_tons min_dist max_dist od.tons od.dist
            + distToMax min_tons max_tons min_dist max_dist od.tons od.dist)),
        ?_, ?_, ?_⟩
      · simp only [getDerivationCoefficient, h1, h2, h3, h4, h5, if_neg hA,
          if_neg hB, if_neg hne, if_neg hsum]
      · exact mul_nonneg hnn (div_nonneg hs (le_of_lt hpos))
      · exact mul_le_of_le_one_right hnn
          ((div_le_one hpos).mpr (le_add_of_nonneg_right hu))

/-- Evaluation of `derivationCoefficient_bounds` on the concrete
interpolation scenario network. -/
theorem derivationCoefficient_bounds_eval :
    ∃ c : ℝ, getDerivationCoefficient fnW odRoadW = Except.ok c ∧
      0 ≤ c ∧ c ≤ 4 / 5 := by
  have hspos : 0 < distToMin 100 2000 50 500 odRoadW.tons odRoadW.dist := by
    simp only [distToMin, vecNorm, odRoadW]
    apply Real.sqrt_pos.mpr
    norm_num [min_def]
  exact derivationCoefficient_bounds fnW odRoadW 500 50 2000 100 (4 / 5)
    rfl rfl rfl rfl rfl (by norm_num) (by norm_num)
    (ne_of_gt (add_pos_of_pos_of_nonneg hspos (distToMax_nonneg _ _ _ _ _ _)))

/-- Claim C3: outside both saturation regions the derivation coefficient is
`max_deriv * d_min / (d_min + d_max)` where `d_min` and `d_max` are the
Euclidean norms of the clamped OD point against the minimum and maximum
derivation points on the rescaled axes; and on the concrete scenario
(`tons = 500`, `distance = 120`, thresholds 100/50/2000/500, maximum
derivation `0.8`) the coefficient is approximately `0.148`. -/
theorem derivationCoefficient_interpolation :
    (∀ (fn : FreightNetwork) (od : OD)
      (max_dist min_dist max_tons min_tons max_deriv : ℝ),
      fn.rail.lookupParam "dist_of_max_derivation" = some max_dist →
      fn.rail.lookupParam "min_dist_to_derive" = some min_dist →
      fn.rail.lookupParam "tons_of_max_derivation" = some max_tons →
      fn.rail.lookupParam "min_tons_to_derive" = some min_tons →
      resolveMaxDeriv fn od = Except.ok max_deriv →
      ¬(od.dist ≥ max_dist ∧ od.tons ≥ max_tons) →
      ¬(od.dist ≤ min_dist ∧ od.tons ≥ min_tons) →
      max_dist ≠ min_dist →
      distToMin min_tons max_tons min_dist max_dist od.tons od.dist
        + distToMax min_tons max_tons min_dist max_dist od.tons od.dist ≠ 0 →
      getDerivationCoefficient fn od = Except.ok (max_deriv *
        (distToMin min_tons max_tons min_dist max_dist od.tons od.dist /
          (distToMin min_tons max_tons min_dist max_dist od.tons od.dist
            + distToMax min_tons max_tons min_dist max_dist od.tons od.dist))) ∧
      distToMin min_tons max_tons min_dist max_dist od.tons od.dist =
        Real.sqrt ((min od.tons max_tons - min_tons) ^ 2 +
          ((min od.dist max_dist) * ((max_tons - min_tons) / (max_dist - min_dist))
            - min_dist * ((max_tons - min_tons) / (max_dist - min_dist))) ^ 2) ∧
      distToMax min_tons max_tons min_dist max_dist od.tons od.dist =
        Real.sqrt ((max_tons - min od.tons max_tons) ^ 2 +
          (max_dist * ((max_tons - min_tons) / (max_dist - min_dist))
            - (min od.dist max_dist) * ((max_tons - min_tons) / (max_dist - min_dist))) ^ 2)) ∧
    (∃ c : ℝ, getDerivationCoefficient fnW odRoadW = Except.ok c ∧
      |c - 0.148| < 1 / 1000) := by
  have hA : ∀ (fn : FreightNetwork) (od : OD)
      (max_dist min_dist max_tons min_tons max_deriv : ℝ),
      fn.rail.lookupParam "dist_of_max_derivation" = some max_dist →
      fn.rail.lookupParam "min_dist_to_derive" = some min_dist →
      fn.rail.lookupParam "tons_of_max_derivation" = some max_tons →
      fn.rail.lookupParam "min_tons_to_derive" = some min_tons →
      resolveMaxDeriv fn od = Except.ok max_deriv →
      ¬(od.dist ≥ max_dist ∧ od.tons ≥ max_tons) →
      ¬(od.dist ≤ min_dist ∧ od.tons ≥ min_tons) →
      max_dist ≠ min_dist →
      distToMin min_tons max_tons min_dist max_dist od.tons od.dist
        + distToMax min_tons max_tons min_dist max_dist od.tons od.dist ≠ 0 →
      getDerivationCoefficient fn od = Except.ok (max_deriv *
        (distToMin min_tons max_tons min_dist max_dist od.tons od.dist /
          (distToMin min_tons max_tons min_dist max_dist od.tons od.dist
            + distToMax min_tons max_tons min_dist max_dist od.tons od.dist))) ∧
      distToMin min_tons max_tons min_dist max_dist od.tons od.dist =
        Real.sqrt ((min od.tons max_tons - min_tons) ^ 2 +
          ((min od.dist max_dist) * ((max_tons - min_tons) / (max_dist - min_dist))
            - min_dist * ((max_tons - min_tons) / (max_dist - min_dist))) ^ 2) ∧
      distToMax min_tons max_tons min_dist max_dist od.tons od.dist =
        Real.sqrt ((max_tons - min od.tons max_tons) ^ 2 +
          (max_dist * ((max_tons - min_tons) / (max_dist - min_dist))
            - (min od.dist max_dist) * ((max_tons - min_tons) / (max_dist - min_dist))) ^ 2) := by
    intro fn od max_dist min_dist max_tons min_tons max_deriv h1 h2 h3 h4 h5
      hA hB hne hsum
    refine ⟨?_, rfl, rfl⟩
    simp only [getDerivationCoefficient, h1, h2, h3, h4, h5, if_neg hA,
      if_neg hB, if_neg hne, if_neg hsum]
  refine ⟨hA, ?_⟩
  have hS : distToMin 100 2000 50 500 odRoadW.tons odRoadW.dist =
      Real.sqrt (20035600 / 81) := by
    simp only [distToMin, vecNorm, odRoadW]
    norm_num [min_def]
  have hT : distToMax 100 2000 50 500 odRoadW.tons odRoadW.dist =
      Real.sqrt (390763600 / 81) := by
    simp only [distToMax, vecNorm, odRoadW]
    norm_num [min_def]
  have hS1 : (4476 / 9 : ℝ) < Real.sqrt (20035600 / 81) :=
    (Real.lt_sqrt (by norm_num)).mpr (by norm_num)
  have hS2 : Real.sqrt (20035600 / 81) < 4477 / 9 :=
    (Real.sqrt_lt' (by norm_num)).mpr (by norm_num)
  have hT1 : (19767 / 9 : ℝ) < Real.sqrt (390763600 / 81) :=
    (Real.lt_sqrt (by norm_num)).mpr (by norm_num)
  have hT2 : Real.sqrt (390763600 / 81) < 19768 / 9 :=
    (Real.sqrt_lt' (by norm_num)).mpr (by norm_num)
  have hsum : distToMin 100 2000 50 500 odRoadW.tons odRoadW.dist
      + distToMax 100 2000 50 500 odRoadW.tons odRoadW.dist ≠ 0 := by
    rw [hS, hT]
    intro hzero
    linarith
  obtain ⟨hc, -, -⟩ := hA fnW odRoadW 500 50 2000 100 (4 / 5) rfl rfl rfl rfl rfl
    (by norm_num [odRoadW]) (by norm_num [odRoadW]) (by norm_num) hsum
  rw [hS, hT] at hc
  refine ⟨_, hc, ?_⟩
  have hst : (0 : ℝ) < Real.sqrt (20035600 / 81) + Real.sqrt (390763600 / 81) := by
    linarith
  rw [abs_lt]
  constructor
  · have hkey : (0.147 : ℝ) * (Real.sqrt (20035600 / 81) + Real.sqrt (390763600 / 81))
        < 4 / 5 * Real.sqrt (20035600 / 81) := by linarith
    have hdiv : (0.147 : ℝ) < 4 / 5 * Real.sqrt (20035600 / 81) /
        (Real.sqrt (20035600 / 81) + Real.sqrt (390763600 / 81)) :=
      (lt_div_iff₀ hst).mpr hkey
    rw [mul_div_assoc] at hdiv
    linarith
  · have hkey : (4 / 5 : ℝ) * Real.sqrt (20035600 / 81)
        < 0.149 * (Real.sqrt (20035600 / 81) + Real.sqrt (390763600 / 81)) := by
      linarith
    have hdiv : (4 / 5 : ℝ) * Real.sqrt (20035600 / 81) /
        (Real.sqrt (20035600 / 81) + Real.sqrt (390763600 / 81)) < 0.149 :=
      (div_lt_iff₀ hst).mpr hkey
    rw [mul_div_assoc] at hdiv
    linarith

/-- Evaluation of `derivationCoefficient_interpolation` on the concrete
interpolation scenario network: the returned coefficient is literally the
normalized vectorial-distance formula. -/
theorem derivationCoefficient_interpolation_eval :
    getDerivationCoefficient fnW odRoadW = Except.ok ((4 / 5) *
      (distToMin 100 2000 50 500 odRoadW.tons odRoadW.dist /
        (distToMin 100 2000 50 500 odRoadW.tons odRoadW.dist
          + distToMax 100 2000 50 500 odRoadW.tons odRoadW.dist))) := by
  have hspos : 0 < distToMin 100 2000 50 500 odRoadW.tons odRoadW.dist := by
    simp only [distToMin, vecNorm, odRoadW]
    apply Real.sqrt_pos.mpr
    norm_num [min_def]
  exact (derivationCoefficient_interpolation.1 fnW odRoadW 500 50 2000 100
    (4 / 5) rfl rfl rfl rfl rfl (by norm_num [odRoadW]) (by norm_num [odRoadW])
    (by norm_num)
    (ne_of_gt (add_pos_of_pos_of_nonneg hspos (distToMax_nonneg _ _ _ _ _ _)))).1

/-- Conjunction of the six derivability conditions: not intrazone, category
nonzero, an operable railway path, strict tonnage and distance thresholds,
and the plausibility bound on the rail/road path distance ratio. -/
def derivableConds (fn : FreightNetwork) (od : OD) : Prop :=
  od.isIntrazone = false ∧ od.category ≠ 0 ∧ fn.rail.hasPath od = true ∧
  ∃ min_tons min_dist max_diff : ℝ,
    fn.rail.lookupParam "min_tons_to_derive" = some min_tons ∧
    fn.rail.lookupParam "min_dist_to_derive" = some min_dist ∧
    fn.rail.lookupParam "max_path_difference" = some max_diff ∧
    od.tons > min_tons ∧ od.dist > min_dist ∧
    |fn.rail.pathDistance od / fn.road.pathDistance od - 1| < max_diff

/-- Claim C1: whenever `_od_pair_is_derivable` returns a boolean (rather than
raising), that boolean is true exactly when all six derivability conditions
hold: the pair is not intrazone, its category is not 0, the rail network has
an operable railway path for it, its tons and distance strictly exceed the
`min_tons_to_derive` and `min_dist_to_derive` parameters, and the rail/road
path distance ratio is within `max_path_difference` of one.  The embedding is
a pure function of the orchestrator state, matching the absence of side
effects. -/
theorem odPairIsDerivable_ok_iff (fn : FreightNetwork) (od : OD) (b : Bool)
    (h : odPairIsDerivable fn od = Except.ok b) :
    b = true ↔ derivableConds fn od := by
  unfold odPairIsDerivable at h
  by_cases h1 : (od.isIntrazone || od.category == 0) = true
  · rw [if_pos h1] at h
    injection h with hb
    subst hb
    simp only [Bool.false_eq_true, false_iff]
    intro hc
    obtain ⟨hi, hc0, -⟩ := hc
    rcases Bool.or_eq_true_iff.mp h1 with ha | hb0
    · rw [hi] at ha
      exact Bool.false_ne_true ha
    · exact hc0 (beq_iff_eq.mp hb0)
  · rw [if_neg h1] at h
    have h1f : (od.isIntrazone || od.category == 0) = false :=
      Bool.eq_false_iff.mpr h1
    obtain ⟨hif, hcf⟩ := Bool.or_eq_false_iff.mp h1f
    by_cases h2 : (!fn.rail.hasPath od) = true
    · rw [if_pos h2] at h
      injection h with hb
      subst hb
      simp only [Bool.false_eq_true, false_iff]
      intro hc
      obtain ⟨-, -, hp, -⟩ := hc
      rw [hp] at h2
      exact Bool.false_ne_true h2
    · rw [if_neg h2] at h
      have hp : fn.rail.hasPath od = true := by
        revert h2
        cases fn.rail.hasPath od <;> simp
      rcases hmt : fn.rail.lookupParam "min_tons_to_derive" with _ | mt
      · simp only [hmt] at h
        exact Except.noConfusion h
      · rcases hmd : fn.rail.lookupParam "min_dist_to_derive" with _ | md
        · simp only [hmt, hmd] at h
          exact Except.noConfusion h
        · rcases hmp : fn.rail.lookupParam "max_path_difference" with _ | mp
          · simp only [hmt, hmd, hmp] at h
            exact Except.noConfusion h
          · simp only [hmt, hmd, hmp] at h
            by_cases hz : fn.road.pathDistance od = 0
            · rw [if_pos hz] at h
              simp at h
            · rw [if_neg hz] at h
              injection h with hX
              rw [← hX]
              constructor
              · intro hXt
                simp only [Bool.and_eq_true, decide_eq_true_eq] at hXt
                obtain ⟨⟨hP, hQ⟩, hR⟩ := hXt
                exact ⟨hif, beq_eq_false_iff_ne.mp hcf, hp,
                  mt, md, mp, hmt, hmd, hmp, hP, hQ, hR⟩
              · intro hc
                obtain ⟨-, -, -, mt2, md2, mp2, hmt2, hmd2, hmp2, hP, hQ, hR⟩ := hc
                rw [hmt] at hmt2
                rw [hmd] at hmd2
                rw [hmp] at hmp2
                injection hmt2 with e1
                injection hmd2 with e2
                injection hmp2 with e3
                subst e1
                subst e2
                subst e3
                simp only [Bool.and_eq_true, decide_eq_true_eq]
                exact ⟨⟨hP, hQ⟩, hR⟩

/-- Evaluation of `odPairIsDerivable_ok_iff` on a concrete derivable OD pair:
the predicate returns `true` and the six conditions hold. -/
theorem odPairIsDerivable_ok_iff_eval :
    derivableConds fnW odRoadW := by
  have e1 : fnW.rail.lookupParam "min_tons_to_derive" = some 100 := rfl
  have e2 : fnW.rail.lookupParam "min_dist_to_derive" = some 50 := rfl
  have e3 : fnW.rail.lookupParam "max_path_difference" = some (1 / 2) := rfl
  have c1 : (odRoadW.isIntrazone || odRoadW.category == 0) = false := rfl
  have c2 : (!fnW.rail.hasPath odRoadW) = false := rfl
  have hzr : fnW.rail.pathDistance odRoadW = 100 := rfl
  have hzd : fnW.road.pathDistance odRoadW = 100 := rfl
  have heval : odPairIsDerivable fnW odRoadW = Except.ok true := by
    simp only [odPairIsDerivable, c1, c2, e1, e2, e3, Bool.false_eq_true,
      if_false, hzd]
    rw [if_neg (by norm_num)]
    simp only [Except.ok.injEq, Bool.and_eq_true, decide_eq_true_eq, hzr, hzd]
    norm_num [odRoadW]
  exact (odPairIsDerivable_ok_iff fnW odRoadW true heval).mp rfl

/-- Claim C7 (amended): the arithmetic degeneracies raise rather than return:
an OD pair that reaches the plausibility ratio check (not intrazone, category
nonzero, railway path present, threshold parameters present) with a zero road
path distance makes `_od_pair_is_derivable` raise `ZeroDivisionError`; and an
OD pair reaching the interpolated region while `max_dist` equals `min_dist`
makes `_get_derivation_coefficient` raise `ZeroDivisionError`.  (The original
universal claim over every OD pair with zero road distance fails: the early
guards return `false` first.) -/
theorem degenerate_divisions_raise :
    (∀ (fn : FreightNetwork) (od : OD) (mt md mp : ℝ),
      od.isIntrazone = false → od.category ≠ 0 → fn.rail.hasPath od = true →
      fn.rail.lookupParam "min_tons_to_derive" = some mt →
      fn.rail.lookupParam "min_dist_to_derive" = some md →
      fn.rail.lookupParam "max_path_difference" = some mp →
      fn.road.pathDistance od = 0 →
      odPairIsDerivable fn od = Except.error PyError.zeroDivisionError) ∧
    (∀ (fn : FreightNetwork) (od : OD)
      (max_dist min_dist max_tons min_tons max_deriv : ℝ),
      fn.rail.lookupParam "dist_of_max_derivation" = some max_dist →
      fn.rail.lookupParam "min_dist_to_derive" = some min_dist →
      fn.rail.lookupParam "tons_of_max_derivation" = some max_tons →
      fn.rail.lookupParam "min_tons_to_derive" = some min_tons →
      resolveMaxDeriv fn od = Except.ok max_deriv →
      ¬(od.dist ≥ max_dist ∧ od.tons ≥ max_tons) →
      ¬(od.dist ≤ min_dist ∧ od.tons ≥ min_tons) →
      max_dist = min_dist →
      getDerivationCoefficient fn od = Except.error PyError.zeroDivisionError) := by
  constructor
  · intro fn od mt md mp hi hc hpath hmt hmd hmp hz
    have h1f : (od.isIntrazone || od.category == 0) = false := by
      rw [hi, beq_eq_false_iff_ne.mpr hc]
      rfl
    have h2f : (!fn.rail.hasPath od) = false := by
      rw [hpath]
      rfl
    simp only [odPairIsDerivable, h1f, h2f, Bool.false_eq_true, if_false,
      hmt, hmd, hmp, if_pos hz]
  · intro fn od max_dist min_dist max_tons min_tons max_deriv h1 h2 h3 h4 h5
      hA hB hEq
    simp only [getDerivationCoefficient, h1, h2, h3, h4, h5, if_neg hA,
      if_neg hB, if_pos hEq]

/-- Claim C7 counterexample: an intrazone OD pair whose road path distance is
zero makes `_od_pair_is_derivable` return `false` through the intrazone early
guard instead of raising. -/
theorem zero_road_distance_not_always_raising :
    fnZeroW.road.pathDistance odIntraW = 0 ∧
    odPairIsDerivable fnZeroW odIntraW = Except.ok false ∧
    (Except.ok false : Except PyError Bool) ≠
      Except.error PyError.zeroDivisionError := by
  have c1 : (odIntraW.isIntrazone || odIntraW.category == 0) = true := rfl
  refine ⟨rfl, ?_, by simp⟩
  simp [odPairIsDerivable, c1]

/-- Evaluation of `degenerate_divisions_raise` on concrete degenerate
networks: a zero road path distance at the ratio check and an equal
`max_dist`/`min_dist` pair at the interpolation scale both surface
`ZeroDivisionError`. -/
theorem degenerate_divisions_raise_eval :
    odPairIsDerivable fnZeroW odRoadW = Except.error PyError.zeroDivisionError ∧
    getDerivationCoefficient fnDegenW odDegenW =
      Except.error PyError.zeroDivisionError := by
  constructor
  · exact degenerate_divisions_raise.1 fnZeroW odRoadW 100 50 (1 / 2)
      rfl (by norm_num [odRoadW]) rfl rfl rfl rfl rfl
  · exact degenerate_divisions_raise.2 fnDegenW odDegenW 50 50 2000 100 (4 / 5)
      rfl rfl rfl rfl rfl (by norm_num [odDegenW]) (by norm_num [odDegenW]) rfl

/-- Original tonnage stored on the link at one `(id, gauge)` key (zero when
the key is absent; the theorems below only use it under presence
hypotheses). -/
def origTonAt (n : ModalNetwork) (id gauge : String) : ℝ :=
  match getLinkG n.links id gauge with
  | some l => l.original_ton
  | none => 0

/-- Derived tonnage stored on the link at one `(id, gauge)` key. -/
def derivedTonAt (n : ModalNetwork) (id gauge : String) : ℝ :=
  match getLinkG n.links id gauge with
  | some l => l.derived_ton
  | none => 0

theorem sum_map_const_of {α : Type} (l : List α) (f : α → ℝ) (a : ℝ)
    (h : ∀ x ∈ l, f x = a) : (l.map f).sum = l.length * a := by
  induction l with
  | nil => simp
  | cons x rest ih =>
    rw [List.map_cons, List.sum_cons, h x (List.mem_cons_self x rest),
      ih (fun y hy => h y (List.mem_cons_of_mem x hy)), List.length_cons]
    push_cast
    ring

/-- Claim C5: a successful `derive_to_railway` with coefficient `c` leaves the
road source pair with `tons * (1 - c)`, adds `tons * c` to the twin rail pair,
and so conserves the total tonnage across the twin pair. -/
theorem deriveToRailway_twin_tons (fn : FreightNetwork) (od odr : OD) (c : ℝ)
    (hroad : fn.road.getOd od.id od.category = some od)
    (hrail : fn.rail.getOd od.id od.category = some odr)
    (hp1 : ∀ j ∈ od.links, getLinkG fn.road.links j od.gauge ≠ none)
    (hp2 : ∀ j ∈ odr.links, getLinkG fn.rail.links j odr.gauge ≠ none) :
    ∃ st2, deriveToRailway fn od c = Except.ok st2 ∧
      st2.road.getOd od.id od.category =
        some { od with tons := od.tons * (1 - c) } ∧
      st2.rail.getOd od.id od.category =
        some { odr with tons := odr.tons + od.tons * c } ∧
      od.tons * (1 - c) + (odr.tons + od.tons * c) = od.tons + odr.tons := by
  obtain ⟨st2, hok, hro, hra, -, -, -, -, -, -⟩ :=
    deriveToRailway_spec fn od c odr hrail hp1 hp2
  refine ⟨st2, hok, ?_, ?_, by ring⟩
  · have hstep : st2.road.getOd od.id od.category =
        (fn.road.updateOd od.id od.category
          (fun o => { o with tons := o.tons * (1 - c) })).getOd od.id od.category := by
      unfold ModalNetwork.getOd
      rw [hro]
    rw [hstep, getOd_updateOd fn.road od.id od.category
      (fun o => { o with tons := o.tons * (1 - c) }) (fun o => ⟨rfl, rfl⟩), hroad]
    rfl
  · have hstep : st2.rail.getOd od.id od.category =
        (fn.rail.updateOd od.id od.category
          (fun o => { o with tons := o.tons + od.tons * c })).getOd od.id od.category := by
      unfold ModalNetwork.getOd
      rw [hra]
    rw [hstep, getOd_updateOd fn.rail od.id od.category
      (fun o => { o with tons := o.tons + od.tons * c }) (fun o => ⟨rfl, rfl⟩), hrail]
    rfl

/-- Claim C6 (amended): a successful `derive_to_railway` removes
`derived_tons` from EACH road link on the source path (looked up by link id
and the road pair's gauge) and adds `derived_tons` to EACH rail link on the
twin's path (looked up by link id and the rail pair's gauge); consequently the
total removed across the source path is `derived_tons` times the number of
path links, and likewise for the total added — not `derived_tons` itself as
the original claim states. -/
theorem deriveToRailway_link_loads (fn : FreightNetwork) (od odr : OD) (c : ℝ)
    (hrail : fn.rail.getOd od.id od.category = some odr)
    (hnd1 : od.links.Nodup) (hnd2 : odr.links.Nodup)
    (hp1 : ∀ j ∈ od.links, getLinkG fn.road.links j od.gauge ≠ none)
    (hp2 : ∀ j ∈ odr.links, getLinkG fn.rail.links j odr.gauge ≠ none) :
    ∃ st2, deriveToRailway fn od c = Except.ok st2 ∧
      (∀ j ∈ od.links,
        origTonAt fn.road j od.gauge - origTonAt st2.road j od.gauge
          = od.tons * c) ∧
      (od.links.map (fun j =>
        origTonAt fn.road j od.gauge - origTonAt st2.road j od.gauge)).sum
          = od.links.length * (od.tons * c) ∧
      (∀ j ∈ odr.links,
        derivedTonAt st2.rail j odr.gauge - derivedTonAt fn.rail j odr.gauge
          = od.tons * c) ∧
      (odr.links.map (fun j =>
        derivedTonAt st2.rail j odr.gauge - derivedTonAt fn.rail j odr.gauge)).sum
          = odr.links.length * (od.tons * c) := by
  obtain ⟨st2, hok, -, -, -, hinRoad, -, hinRail, -, -⟩ :=
    deriveToRailway_spec fn od c odr hrail hp1 hp2
  have hperR : ∀ j ∈ od.links,
      origTonAt fn.road j od.gauge - origTonAt st2.road j od.gauge
        = od.tons * c := by
    intro j hj
    rcases hcur : getLinkG fn.road.links j od.gauge with _ | l
    · exact absurd hcur (hp1 j hj)
    · have h2 := hinRoad hnd1 j hj
      rw [hcur] at h2
      simp only [origTonAt, hcur, h2, Option.map_some', Link.removeOriginalTon]
      ring
  have hperL : ∀ j ∈ odr.links,
      derivedTonAt st2.rail j odr.gauge - derivedTonAt fn.rail j odr.gauge
        = od.tons * c := by
    intro j hj
    rcases hcur : getLinkG fn.rail.links j odr.gauge with _ | l
    · exact absurd hcur (hp2 j hj)
    · have h2 := hinRail hnd2 j hj
      rw [hcur] at h2
      simp only [derivedTonAt, hcur, h2, Option.map_some', Link.addDerivedTon]
      ring
  exact ⟨st2, hok, hperR, sum_map_const_of _ _ _ hperR, hperL,
    sum_map_const_of _ _ _ hperL⟩

theorem fnW_road_links_present :
    ∀ j ∈ odRoadW.links, getLinkG fnW.road.links j odRoadW.gauge ≠ none := by
  intro j hj
  have hj2 : j = "a" ∨ j = "b" := by simpa [odRoadW] using hj
  rcases hj2 with rfl | rfl
  · rw [show getLinkG fnW.road.links "a" odRoadW.gauge = some roadLinkW from rfl]
    simp
  · rw [show getLinkG fnW.road.links "b" odRoadW.gauge = some roadLinkW from rfl]
    simp

theorem fnW_rail_links_present :
    ∀ j ∈ odRailW.links, getLinkG fnW.rail.links j odRailW.gauge ≠ none := by
  intro j hj
  have hj2 : j = "r" := by simpa [odRailW] using hj
  subst hj2
  rw [show getLinkG fnW.rail.links "r" odRailW.gauge = some railLinkW from rfl]
  simp

/-- Evaluation of `deriveToRailway_twin_tons` on the concrete freight
network: half of the road pair's 500 tons move to its rail twin. -/
theorem deriveToRailway_twin_tons_eval :
    ∃ st2, deriveToRailway fnW odRoadW (1 / 2) = Except.ok st2 ∧
      st2.road.getOd odRoadW.id odRoadW.category =
        some { odRoadW with tons := odRoadW.tons * (1 - 1 / 2) } ∧
      st2.rail.getOd odRoadW.id odRoadW.category =
        some { odRailW with tons := odRailW.tons + odRoadW.tons * (1 / 2) } ∧
      odRoadW.tons * (1 - 1 / 2) + (odRailW.tons + odRoadW.tons * (1 / 2))
        = odRoadW.tons + odRailW.tons :=
  deriveToRailway_twin_tons fnW odRoadW odRailW (1 / 2) rfl rfl
    fnW_road_links_present fnW_rail_links_present

/-- Evaluation of `deriveToRailway_link_loads` on the concrete freight
network: each of the two road path links loses the 250 derived tons and the
rail path link gains them. -/
theorem deriveToRailway_link_loads_eval :
    ∃ st2, deriveToRailway fnW odRoadW (1 / 2) = Except.ok st2 ∧
      (∀ j ∈ odRoadW.links,
        origTonAt fnW.road j odRoadW.gauge - origTonAt st2.road j odRoadW.gauge
          = odRoadW.tons * (1 / 2)) ∧
      (odRoadW.links.map (fun j =>
        origTonAt fnW.road j odRoadW.gauge - origTonAt st2.road j odRoadW.gauge)).sum
          = odRoadW.links.length * (odRoadW.tons * (1 / 2)) ∧
      (∀ j ∈ odRailW.links,
        derivedTonAt st2.rail j odRailW.gauge - derivedTonAt fnW.rail j odRailW.gauge
          = odRoadW.tons * (1 / 2)) ∧
      (odRailW.links.map (fun j =>
        derivedTonAt st2.rail j odRailW.gauge - derivedTonAt fnW.rail j odRailW.gauge)).sum
          = odRailW.links.length * (odRoadW.tons * (1 / 2)) :=
  deriveToRailway_link_loads fnW odRoadW odRailW (1 / 2) rfl (by decide)
    (by decide) fnW_road_links_present fnW_rail_links_present

/-- Claim C6 counterexample: on a road path of two links, a transfer of
`derived_tons = 250` removes 250 tons from EACH link, so the total removed
across the path is 500, twice `derived_tons` — the claimed sum equal to
`derived_tons` is false for any path longer than one link. -/
theorem deriveToRailway_link_loads_sum :
    odRoadW.links = ["a", "b"] ∧
    deriveToRailway fnW odRoadW (1 / 2) =
      Except.ok (stateOf (deriveToRailway fnW odRoadW (1 / 2))) ∧
    (origTonAt fnW.road "a" odRoadW.gauge -
        origTonAt (stateOf (deriveToRailway fnW odRoadW (1 / 2))).road "a" odRoadW.gauge)
      + (origTonAt fnW.road "b" odRoadW.gauge -
        origTonAt (stateOf (deriveToRailway fnW odRoadW (1 / 2))).road "b" odRoadW.gauge)
      = 2 * (odRoadW.tons * (1 / 2)) ∧
    2 * (odRoadW.tons * (1 / 2)) ≠ odRoadW.tons * (1 / 2) := by
  obtain ⟨st2, hok, -, -, -, hinRoad, -, -, -, -⟩ :=
    deriveToRailway_spec fnW odRoadW (1 / 2) odRailW rfl
      fnW_road_links_present fnW_rail_links_present
  have hnd : odRoadW.links.Nodup := by decide
  have hma : "a" ∈ odRoadW.links := by decide
  have hmb : "b" ∈ odRoadW.links := by decide
  have ha2 := hinRoad hnd "a" hma
  have hb2 := hinRoad hnd "b" hmb
  rw [show getLinkG fnW.road.links "a" odRoadW.gauge = some roadLinkW from rfl]
    at ha2
  rw [show getLinkG fnW.road.links "b" odRoadW.gauge = some roadLinkW from rfl]
    at hb2
  refine ⟨rfl, ?_, ?_, ?_⟩
  · rw [hok]
    rfl
  · rw [hok]
    have ea : origTonAt fnW.road "a" odRoadW.gauge = 200 := rfl
    have eb : origTonAt fnW.road "b" odRoadW.gauge = 200 := rfl
    have ea2 : origTonAt (stateOf (Except.ok st2)).road "a" odRoadW.gauge =
        roadLinkW.original_ton - odRoadW.tons * (1 / 2) := by
      simp only [stateOf, origTonAt, ha2, Option.map_some', Link.removeOriginalTon]
    have eb2 : origTonAt (stateOf (Except.ok st2)).road "b" odRoadW.gauge =
        roadLinkW.original_ton - odRoadW.tons * (1 / 2) := by
      simp only [stateOf, origTonAt, hb2, Option.map_some', Link.removeOriginalTon]
    rw [ea, eb, ea2, eb2]
    norm_num [roadLinkW, odRoadW]
  · norm_num [odRoadW]
